import Mathlib

/-!
Verification development for the regulatory question-answering pipeline
(backend agents plus the graph controller).

The Python source is shallowly embedded as Lean functions. External
capabilities (the text-generation service and the similarity-search
index) are modelled as oracle parameters: the pipeline code never
inspects how their answers were produced, so every theorem below is
universally quantified over those oracles. Python floats from decoded
payloads are modelled as rationals; Python dictionaries whose keys may
be absent are modelled as structures with `Option` fields.
-/

namespace RegQA

/-- A retrieved chunk as produced by the vector store
(`src/backend/ingestion/retriever.py`): text content plus metadata keys
`regulation`, `source`, `page`, each of which may be absent. -/
structure Document where
  page_content : String
  regulation : Option String
  source : Option String
  page : Option Nat
  deriving Repr, DecidableEq

/-- One claim entry in a decoded verification payload
(`src/backend/agents/compliance_checker.py` prompt schema). -/
structure VClaim where
  text : String
  status : String
  source : Option String
  deriving Repr, DecidableEq

/-- A verification payload: the decoded JSON dict stored in
`state["verification"]`. Every field is optional because the dict may
lack any key (the initial state stores the empty dict `{}`). -/
structure Verification where
  claims : Option (List VClaim)
  confidence : Option ℚ
  summary : Option String
  deriving Repr, DecidableEq

/-- The shared pipeline state (`src/backend/agents/state.py`,
`AgentState`). -/
structure AgentState where
  query : String
  query_type : String
  target_regulations : List String
  retrieved_docs : List Document
  answer : String
  verification : Verification
  retry_count : Nat
  deriving Repr, DecidableEq

/-- Oracle for `similarity_search(query, k, filter_dict)`: the filter is
either `none` (unfiltered) or `some reg` for `{"regulation": reg}`. -/
abbrev SearchFn := String → Nat → Option String → List Document

/-- Python substring test `needle in haystack`. -/
def pyContains (haystack needle : String) : Bool :=
  decide (List.IsInfix needle.toList haystack.toList)

/-- Python `str.lower()` (ASCII range, which covers the catalog). -/
def pyLower (s : String) : String :=
  String.mk (s.toList.map Char.toLower)

/-- Python `str.upper()` (ASCII range, which covers the intent labels). -/
def pyUpper (s : String) : String :=
  String.mk (s.toList.map Char.toUpper)

/-- Python `str.strip()`: drop whitespace from both ends. -/
def pyStrip (s : String) : String :=
  String.mk
    (((s.toList.dropWhile Char.isWhitespace).reverse.dropWhile Char.isWhitespace).reverse)

/-! ## Router (`src/backend/agents/router.py`) -/

/-- The keyword-pattern catalog of `detect_regulations`: ordered map of
canonical regulation name to lowercase keyword variants. -/
def patterns : List (String × List String) :=
  [("SR 11-7", ["sr 11-7", "sr11-7", "sr1107", "sr 1107"]),
   ("NIST AI RMF", ["nist", "ai rmf", "ai 100-1", "ai100"]),
   ("ISO 42001", ["iso 42001", "iso42001"]),
   ("NAIC Model Bulletin", ["naic", "model bulletin"]),
   ("Colorado SB21-169", ["colorado", "sb21-169", "sb 21-169", "sb21169"])]

/-- `detect_regulations`: lowercase the query, then collect (in catalog
order) every regulation one of whose keywords occurs in it. The source
appends a regulation and leaves the inner loop on the first keyword hit,
which is exactly a filter by an existential over the keyword list. -/
def detect_regulations (query : String) : List String :=
  let query_lower := pyLower query
  (patterns.filter fun p => p.2.any fun keyword => pyContains query_lower keyword).map
    Prod.fst

/-- The closed set of intent labels accepted by `router_agent`. -/
def valid_types : List String := ["LOOKUP", "COMPARE", "CHECKLIST", "EXPLAIN"]

/-- Normalization of the classifier response in `router_agent`:
`response.content.strip().upper()`, with fallback to EXPLAIN when the
result is not a valid label. -/
def normalize_query_type (response_content : String) : String :=
  let query_type := pyUpper (pyStrip response_content)
  if query_type ∈ valid_types then query_type else "EXPLAIN"

/-- `router_agent`: sets `query_type` from the (oracle-provided) LLM
response content and `target_regulations` from keyword detection. -/
def router_agent (response_content : String) (state : AgentState) : AgentState :=
  { state with
    query_type := normalize_query_type response_content
    target_regulations := detect_regulations state.query }

/-! ## Retriever (`src/backend/agents/retriever.py`) -/

/-- The strategy branch of `retriever_agent` (lines 29-63): choose the
search calls from the query type and the detected regulations. -/
def primary_results (search : SearchFn) (query query_type : String)
    (target_regulations : List String) : List Document :=
  if query_type = "LOOKUP" ∧ target_regulations.length = 1 then
    search query 5 (some (target_regulations.headD ""))
  else if query_type = "COMPARE" ∧ 2 ≤ target_regulations.length then
    let per_regulation := max 5 (10 / target_regulations.length)
    (target_regulations.map fun reg => search query per_regulation (some reg)).flatten
  else if query_type = "COMPARE" then
    search query 10 none
  else
    search query 7 none

/-- The full result computation of `retriever_agent`: primary strategy,
then the retry-widening rule (lines 65-68). -/
def retrieval_results (search : SearchFn) (query query_type : String)
    (target_regulations : List String) (retry_count : Nat) : List Document :=
  let results := primary_results search query query_type target_regulations
  if 0 < retry_count ∧ results.length < 3 then search query 10 none
  else results

/-- `retriever_agent`: store this invocation's results and increment the
retry counter. -/
def retriever_agent (search : SearchFn) (state : AgentState) : AgentState :=
  { state with
    retrieved_docs :=
      retrieval_results search state.query state.query_type state.target_regulations
        state.retry_count
    retry_count := state.retry_count + 1 }

/-! ## Synthesizer (`src/backend/agents/synthesizer.py`) -/

/-- `synthesizer_agent`: stores the (oracle-provided) LLM answer. The
prompt construction does not influence any state field other than
`answer`, which is set to the response content. -/
def synthesizer_agent (response_content : String) (state : AgentState) : AgentState :=
  { state with answer := response_content }

/-! ## Compliance checker (`src/backend/agents/compliance_checker.py`) -/

/-- The preprocessing of `parse_verification_response`: strip
surrounding whitespace, then when the text starts with a markdown fence
drop the first and last lines (`lines[1:-1]`). -/
def strip_code_fence (response_text : String) : String :=
  let text := pyStrip response_text
  if text.startsWith "```" then
    let lines := text.splitOn "\n"
    String.intercalate "\n" ((lines.drop 1).dropLast)
  else text

/-- The safe default returned when JSON decoding fails. -/
def default_verification : Verification :=
  { claims := some []
    confidence := some (1 / 2)
    summary := some "Could not parse verification response" }

/-- `parse_verification_response`: `json.loads` is modelled by the
oracle `loads`, returning `none` exactly when decoding raises
`JSONDecodeError`. -/
def parse_verification_response (loads : String → Option Verification)
    (response_text : String) : Verification :=
  match loads (strip_code_fence response_text) with
  | some payload => payload
  | none => default_verification

/-- `compliance_checker_agent`: stores the parsed verification payload
of the (oracle-provided) LLM response content. -/
def compliance_checker_agent (loads : String → Option Verification)
    (response_content : String) (state : AgentState) : AgentState :=
  { state with verification := parse_verification_response loads response_content }

/-! ## Graph controller (`src/backend/graph.py`) -/

/-- `should_retry`: the conditional edge after the compliance checker.
A missing `confidence` key defaults to `1.0`; a missing `retry_count`
key defaults to `0` (our state always carries the field). -/
def should_retry (state : AgentState) : String :=
  let confidence := state.verification.confidence.getD 1
  let retry_count := state.retry_count
  if confidence < 7 / 10 ∧ retry_count ≤ 2 then "retry"
  else "end"

/-- The node names of the LangGraph workflow in `build_graph`. -/
inductive Stage where
  | router
  | retriever
  | synthesizer
  | compliance_checker
  deriving Repr, DecidableEq

/-- The external capabilities consumed during one run: the classifier
response for the single router call, and per-pass (indexed by the
`retry_count` at entry to the pass) search results, synthesizer
responses and verifier responses, plus the JSON decoder. -/
structure Oracle where
  route_response : String
  search : Nat → SearchFn
  synth_response : Nat → String
  verify_response : Nat → String
  loads : String → Option Verification

/-- One retrieve → synthesize → verify pass followed by the
`should_retry` conditional edge, looping back to the retriever on
"retry". Returns the final state and the visited node trace. The loop
terminates because the retriever increments `retry_count` and the gate
requires `retry_count ≤ 2`. -/
def run_from (o : Oracle) (s : AgentState) : AgentState × List Stage :=
  let s1 := retriever_agent (o.search s.retry_count) s
  let s2 := synthesizer_agent (o.synth_response s.retry_count) s1
  let s3 := compliance_checker_agent o.loads (o.verify_response s.retry_count) s2
  if h : should_retry s3 = "retry" then
    let r := run_from o s3
    (r.1, Stage.retriever :: Stage.synthesizer :: Stage.compliance_checker :: r.2)
  else
    (s3, [Stage.retriever, Stage.synthesizer, Stage.compliance_checker])
termination_by 3 - s.retry_count
decreasing_by
  have h2 : s3.retry_count ≤ 2 := by
    simp only [should_retry] at h
    split at h
    · exact (by assumption : _ ∧ s3.retry_count ≤ 2).2
    · exact absurd h (by decide)
  have h1 : s3.retry_count = s.retry_count + 1 := rfl
  show 3 - s3.retry_count < 3 - s.retry_count
  omega

/-- The initial state built by `ask_question`: only the query is set. -/
def initial_state (query : String) : AgentState :=
  { query := query
    query_type := ""
    target_regulations := []
    retrieved_docs := []
    answer := ""
    verification := { claims := none, confidence := none, summary := none }
    retry_count := 0 }

/-- `app.invoke(initial_state)`: enter at the router, then run the
retrieve/synthesize/verify loop. Returns the final state and the full
node trace. -/
def run_pipeline (o : Oracle) (query : String) : AgentState × List Stage :=
  let routed := router_agent o.route_response (initial_state query)
  let r := run_from o routed
  (r.1, Stage.router :: r.2)

/-- One entry of the `sources` list in the API response. -/
structure Source where
  regulation : String
  page : Nat
  content : String
  deriving Repr, DecidableEq

/-- The response dict returned by `ask_question`. -/
structure ApiResponse where
  answer : String
  sources : List Source
  confidence : ℚ
  query_type : String
  verification : Verification
  deriving Repr, DecidableEq

/-- `format_sources`: metadata defaults `"Unknown"` and `0`, content
truncated to 300 characters. -/
def format_sources (docs : List Document) : List Source :=
  docs.map fun doc =>
    { regulation := doc.regulation.getD "Unknown"
      page := doc.page.getD 0
      content := doc.page_content.take 300 }

/-- The response packaging at the end of `ask_question` (lines
131-137): note the `confidence` default here is `0`, not `1.0`. -/
def package_response (result : AgentState) : ApiResponse :=
  { answer := result.answer
    sources := format_sources result.retrieved_docs
    confidence := result.verification.confidence.getD 0
    query_type := result.query_type
    verification := result.verification }

/-- `ask_question`: run the pipeline on a fresh state and package the
final state. -/
def ask_question (o : Oracle) (query : String) : ApiResponse :=
  package_response (run_pipeline o query).1

/-! ## Concrete fixtures used in witness statements -/

/-- A sample retrieved chunk. -/
def fixture_doc : Document :=
  { page_content := "Model documentation requirements."
    regulation := some "SR 11-7"
    source := some "sr11-7.pdf"
    page := some 12 }

/-- A search oracle returning `k` copies of a passage tagged with the
requested filter. -/
def fixture_search : SearchFn := fun _ k f =>
  List.replicate k { page_content := "passage", regulation := f, source := none, page := some 1 }

/-- A search oracle whose filtered searches find nothing. -/
def fixture_search_empty_filtered : SearchFn := fun _ k f =>
  match f with
  | some _ => []
  | none => List.replicate k fixture_doc

/-- A state entering the retriever on its first retry. -/
def fixture_retry_state : AgentState :=
  { initial_state "q" with
    query_type := "LOOKUP"
    target_regulations := ["SR 11-7"]
    retry_count := 1 }

/-- A JSON decoder that always fails. -/
def fixture_loads : String → Option Verification := fun _ => none

/-! ## Shared lemmas about the retry gate and the run loop -/

/-- The retry gate fires exactly on low confidence with at most two
prior retries. -/
theorem retry_gate_iff (s : AgentState) :
    should_retry s = "retry" ↔
      s.verification.confidence.getD 1 < 7 / 10 ∧ s.retry_count ≤ 2 := by
  constructor
  · intro h
    simp only [should_retry] at h
    split at h
    · assumption
    · exact absurd h (by decide)
  · intro hc
    simp only [should_retry, if_pos hc]

/-- The gate returns "end" whenever its condition fails. -/
theorem retry_gate_end (s : AgentState)
    (h : ¬(s.verification.confidence.getD 1 < 7 / 10 ∧ s.retry_count ≤ 2)) :
    should_retry s = "end" := by
  simp only [should_retry, if_neg h]

/-- The retriever bumps the retry counter by one. -/
theorem retriever_agent_retry_count (search : SearchFn) (s : AgentState) :
    (retriever_agent search s).retry_count = s.retry_count + 1 := rfl

/-- The loop performs at most `1 + (2 - retry_count)` retrieval passes
from any state. -/
theorem run_from_count (o : Oracle) (s : AgentState) :
    (run_from o s).2.count Stage.retriever ≤ 1 + (2 - s.retry_count) := by
  induction s using run_from.induct o with
  | case1 x s1 s2 s3 h ih =>
    rw [run_from, dif_pos h]
    show List.count Stage.retriever
        (Stage.retriever :: Stage.synthesizer :: Stage.compliance_checker ::
          (run_from o s3).2) ≤ 1 + (2 - x.retry_count)
    have hrc : s3.retry_count = x.retry_count + 1 := rfl
    have hle : s3.retry_count ≤ 2 := ((retry_gate_iff s3).mp h).2
    rw [hrc] at ih hle
    simp [List.count_cons]
    omega
  | case2 x s1 s2 s3 h =>
    rw [run_from, dif_neg h]
    show List.count Stage.retriever
        [Stage.retriever, Stage.synthesizer, Stage.compliance_checker]
      ≤ 1 + (2 - x.retry_count)
    have : List.count Stage.retriever
        [Stage.retriever, Stage.synthesizer, Stage.compliance_checker] = 1 := by decide
    omega

/-- The loop never visits the router, and leaves `query_type` and
`target_regulations` untouched. -/
theorem run_from_frozen (o : Oracle) (s : AgentState) :
    (run_from o s).1.query_type = s.query_type ∧
    (run_from o s).1.target_regulations = s.target_regulations ∧
    Stage.router ∉ (run_from o s).2 := by
  induction s using run_from.induct o with
  | case1 x s1 s2 s3 h ih =>
    rw [run_from, dif_pos h]
    show (run_from o s3).1.query_type = x.query_type ∧
      (run_from o s3).1.target_regulations = x.target_regulations ∧
      Stage.router ∉ Stage.retriever :: Stage.synthesizer ::
        Stage.compliance_checker :: (run_from o s3).2
    refine ⟨ih.1, ih.2.1, ?_⟩
    simp only [List.mem_cons, not_or]
    exact ⟨by decide, by decide, by decide, ih.2.2⟩
  | case2 x s1 s2 s3 h =>
    rw [run_from, dif_neg h]
    show s3.query_type = x.query_type ∧
      s3.target_regulations = x.target_regulations ∧
      Stage.router ∉ [Stage.retriever, Stage.synthesizer, Stage.compliance_checker]
    exact ⟨rfl, rfl, by decide⟩

/-! ## Claims -/

/-- C1: after the verification stage, the pipeline loops back to
retrieval exactly when the verification confidence is below 0.7 and the
retry counter is at most 2; otherwise it ends; and a verification
result carrying no confidence value is read as confidence 1.0, so it
never retries. -/
theorem C1_retry_gate (s : AgentState) :
    (should_retry s = "retry" ↔
      s.verification.confidence.getD 1 < 7 / 10 ∧ s.retry_count ≤ 2) ∧
    (should_retry s ≠ "retry" → should_retry s = "end") ∧
    (s.verification.confidence = none → should_retry s = "end") := by
  refine ⟨retry_gate_iff s, ?_, ?_⟩
  · intro hn
    by_cases hc : s.verification.confidence.getD 1 < 7 / 10 ∧ s.retry_count ≤ 2
    · exact absurd ((retry_gate_iff s).mpr hc) hn
    · exact retry_gate_end s hc
  · intro h
    refine retry_gate_end s ?_
    rw [h]
    norm_num

/-- Witness for C1 at the initial state, whose verification dict is
empty (no confidence key). -/
theorem C1_retry_gate_witness :
    should_retry (initial_state "What is model risk?") = "end" :=
  (C1_retry_gate (initial_state "What is model risk?")).2.2 rfl

/-- C2: every run performs at most 3 retrieval passes, and the
retriever increments the retry counter by exactly 1 on every entry, so
the loop always terminates. -/
theorem C2_bounded_passes (o : Oracle) (q : String) :
    (run_pipeline o q).2.count Stage.retriever ≤ 3 ∧
    ∀ (search : SearchFn) (s : AgentState),
      (retriever_agent search s).retry_count = s.retry_count + 1 := by
  constructor
  · have h := run_from_count o (router_agent o.route_response (initial_state q))
    have hrc : (router_agent o.route_response (initial_state q)).retry_count = 0 := rfl
    rw [hrc] at h
    show (Stage.router ::
        (run_from o (router_agent o.route_response (initial_state q))).2).count
        Stage.retriever ≤ 3
    simp [List.count_cons]
    omega
  · intro search s
    rfl

/-- C8: the router stage appears exactly once in every run trace, and
the intent and detected regulations of the final state are exactly the
router's outputs, unchanged by every later stage and retry. -/
theorem C8_router_once (o : Oracle) (q : String) :
    (run_pipeline o q).2.count Stage.router = 1 ∧
    (run_pipeline o q).1.query_type = normalize_query_type o.route_response ∧
    (run_pipeline o q).1.target_regulations = detect_regulations q := by
  have h := run_from_frozen o (router_agent o.route_response (initial_state q))
  refine ⟨?_, h.1, h.2.1⟩
  show (Stage.router ::
      (run_from o (router_agent o.route_response (initial_state q))).2).count
      Stage.router = 1
  rw [List.count_cons_self, List.count_eq_zero.mpr h.2.2]

/-- C10: the retriever stores exactly the passages produced by this
invocation's searches; the previously stored passages do not influence
the result and are discarded, never appended to. -/
theorem C10_docs_replaced (search : SearchFn) (s : AgentState) (docs : List Document) :
    (retriever_agent search { s with retrieved_docs := docs }).retrieved_docs =
      (retriever_agent search s).retrieved_docs ∧
    (retriever_agent search s).retrieved_docs =
      retrieval_results search s.query s.query_type s.target_regulations s.retry_count :=
  ⟨rfl, rfl⟩

/-- C3: the primary retrieval strategy follows the selection table:
LOOKUP with one detected regulation does a single filtered search with
k=5; COMPARE with at least two regulations does one filtered search per
regulation with k = max 5 (10 / count), concatenated in detection
order; COMPARE with fewer than two does one unfiltered search with
k=10; CHECKLIST, EXPLAIN, or LOOKUP without exactly one regulation does
one unfiltered search with k=7. -/
theorem C3_strategy_table (search : SearchFn) (query query_type : String)
    (regs : List String) :
    (∀ r, query_type = "LOOKUP" → regs = [r] →
      primary_results search query query_type regs = search query 5 (some r)) ∧
    (query_type = "COMPARE" → 2 ≤ regs.length →
      primary_results search query query_type regs =
        (regs.map fun reg =>
          search query (max 5 (10 / regs.length)) (some reg)).flatten) ∧
    (query_type = "COMPARE" → regs.length < 2 →
      primary_results search query query_type regs = search query 10 none) ∧
    (query_type = "CHECKLIST" ∨ query_type = "EXPLAIN" ∨
        (query_type = "LOOKUP" ∧ regs.length ≠ 1) →
      primary_results search query query_type regs = search query 7 none) := by
  refine ⟨?_, ?_, ?_, ?_⟩
  · rintro r rfl rfl
    simp [primary_results]
  · rintro rfl h2
    rw [primary_results, if_neg (by omega), if_pos ⟨rfl, h2⟩]
  · rintro rfl h2
    rw [primary_results, if_neg (by simp), if_neg (by omega), if_pos rfl]
  · rintro (rfl | rfl | ⟨rfl, hne⟩)
    · rw [primary_results, if_neg (by simp), if_neg (by simp), if_neg (by simp)]
    · rw [primary_results, if_neg (by simp), if_neg (by simp), if_neg (by simp)]
    · rw [primary_results, if_neg (by simp [hne]), if_neg (by simp), if_neg (by simp)]

/-- Witness for C3: a concrete LOOKUP query over one regulation. -/
theorem C3_strategy_table_witness :
    primary_results fixture_search "q" "LOOKUP" ["SR 11-7"] =
      fixture_search "q" 5 (some "SR 11-7") :=
  (C3_strategy_table fixture_search "q" "LOOKUP" ["SR 11-7"]).1 "SR 11-7" rfl rfl

/-- C4: when the retriever is entered with a positive retry counter and
the primary strategy yields fewer than 3 passages, the results are
replaced by one unfiltered k=10 search; on a first pass (retry counter
0) or with at least 3 primary results, the primary results stand. -/
theorem C4_widening (search : SearchFn) (s : AgentState) :
    (s.retry_count = 0 →
      (retriever_agent search s).retrieved_docs =
        primary_results search s.query s.query_type s.target_regulations) ∧
    (0 < s.retry_count →
      (primary_results search s.query s.query_type s.target_regulations).length < 3 →
      (retriever_agent search s).retrieved_docs = search s.query 10 none) ∧
    (0 < s.retry_count →
      3 ≤ (primary_results search s.query s.query_type s.target_regulations).length →
      (retriever_agent search s).retrieved_docs =
        primary_results search s.query s.query_type s.target_regulations) := by
  refine ⟨?_, ?_, ?_⟩
  · intro h0
    show retrieval_results search s.query s.query_type s.target_regulations
        s.retry_count = _
    rw [retrieval_results, if_neg (by omega)]
  · intro hpos hshort
    show retrieval_results search s.query s.query_type s.target_regulations
        s.retry_count = _
    rw [retrieval_results, if_pos ⟨hpos, hshort⟩]
  · intro hpos hlong
    show retrieval_results search s.query s.query_type s.target_regulations
        s.retry_count = _
    rw [retrieval_results, if_neg (by omega)]

/-- Witness for C4: a first retry whose filtered search found
nothing. -/
theorem C4_widening_witness :
    (retriever_agent fixture_search_empty_filtered fixture_retry_state).retrieved_docs =
      fixture_search_empty_filtered "q" 10 none :=
  (C4_widening fixture_search_empty_filtered fixture_retry_state).2.1
    (by decide) (by decide)

/-- C5: the verification parser is total: after whitespace stripping
and removal of one markdown code-fence layer, a response that fails to
decode yields the fixed default (empty claims, confidence exactly 1/2,
a summary noting the failure), and a response that decodes is returned
unchanged. -/
theorem C5_parse_total (loads : String → Option Verification) (resp : String) :
    (loads (strip_code_fence resp) = none →
      parse_verification_response loads resp = default_verification ∧
      (parse_verification_response loads resp).claims = some [] ∧
      (parse_verification_response loads resp).confidence = some (1 / 2) ∧
      (parse_verification_response loads resp).summary =
        some "Could not parse verification response") ∧
    (∀ payload, loads (strip_code_fence resp) = some payload →
      parse_verification_response loads resp = payload) := by
  constructor
  · intro h
    have he : parse_verification_response loads resp = default_verification := by
      rw [parse_verification_response, h]
    refine ⟨he, ?_, ?_, ?_⟩ <;> (rw [he]; rfl)
  · intro payload h
    rw [parse_verification_response, h]

/-- Witness for C5: a fenced response that does not decode. -/
theorem C5_parse_total_witness :
    parse_verification_response fixture_loads "```json\nnot valid json\n```" =
      default_verification :=
  ((C5_parse_total fixture_loads "```json\nnot valid json\n```").1 rfl).1

/-- C6: regulation detection returns a duplicate-free list in catalog
order, containing a regulation exactly when one of its catalog keyword
variants occurs (case-insensitively) as a substring of the query. -/
theorem C6_detect_regulations (query : String) :
    (detect_regulations query).Nodup ∧
    (∀ reg, reg ∈ detect_regulations query ↔
      ∃ kws, (reg, kws) ∈ patterns ∧
        ∃ kw ∈ kws, pyContains (pyLower query) kw = true) ∧
    (detect_regulations query).Sublist (patterns.map Prod.fst) := by
  have hsub : (detect_regulations query).Sublist (patterns.map Prod.fst) :=
    (List.filter_sublist patterns).map Prod.fst
  refine ⟨List.Nodup.sublist hsub (by decide), ?_, hsub⟩
  intro reg
  simp only [detect_regulations, List.mem_map, List.mem_filter]
  constructor
  · rintro ⟨⟨r, kws⟩, ⟨hmem, hpred⟩, rfl⟩
    exact ⟨kws, hmem, by simpa using List.any_eq_true.mp hpred⟩
  · rintro ⟨kws, hmem, kw, hkw, hc⟩
    exact ⟨(reg, kws), ⟨hmem, List.any_eq_true.mpr ⟨kw, hkw, hc⟩⟩, rfl⟩

/-- Witness for C6: a query naming two regulations. -/
theorem C6_detect_regulations_witness :
    "NIST AI RMF" ∈ detect_regulations "Compare NIST with ISO 42001" :=
  ((C6_detect_regulations "Compare NIST with ISO 42001").2.1 "NIST AI RMF").mpr
    ⟨["nist", "ai rmf", "ai 100-1", "ai100"], by decide, "nist", by decide, by decide⟩

/-- C7: the router always produces one of the four valid intents: the
classifier label is stripped and uppercased, an unrecognized normalized
label falls back to EXPLAIN, and a label differing from a valid intent
only by case or surrounding whitespace is accepted as that intent. -/
theorem C7_router_fallback (response_content : String) (s : AgentState) :
    normalize_query_type response_content ∈ valid_types ∧
    (pyUpper (pyStrip response_content) ∉ valid_types →
      normalize_query_type response_content = "EXPLAIN") ∧
    (∀ t ∈ valid_types, pyUpper (pyStrip response_content) = t →
      normalize_query_type response_content = t) ∧
    (router_agent response_content s).query_type =
      normalize_query_type response_content := by
  refine ⟨?_, ?_, ?_, rfl⟩
  · rw [normalize_query_type]
    split
    · assumption
    · decide
  · intro hno
    rw [normalize_query_type, if_neg hno]
  · intro t ht heq
    rw [normalize_query_type, if_pos (heq ▸ ht), heq]

/-- Witness for C7: an unrecognized label with decorative whitespace. -/
theorem C7_router_fallback_witness :
    normalize_query_type "  maybe " = "EXPLAIN" :=
  (C7_router_fallback "  maybe " (initial_state "q")).2.1 (by decide)

/-- C9: the two readers of a verification dict without a confidence key
disagree: the packaged API response reports confidence 0, while the
retry gate reads the same absence as full confidence and therefore
never retries. -/
theorem C9_confidence_defaults (result : AgentState)
    (h : result.verification.confidence = none) :
    (package_response result).confidence = 0 ∧
    should_retry result = "end" ∧
    (∀ o q, ask_question o q = package_response (run_pipeline o q).1) := by
  refine ⟨?_, ?_, fun o q => rfl⟩
  · show result.verification.confidence.getD 0 = 0
    rw [h]
    rfl
  · refine retry_gate_end result ?_
    rw [h]
    norm_num

/-- Witness for C9 at a state holding the initial empty verification
dict. -/
theorem C9_confidence_defaults_witness :
    (package_response (initial_state "q2")).confidence = 0 ∧
    should_retry (initial_state "q2") = "end" :=
  ⟨(C9_confidence_defaults (initial_state "q2") rfl).1,
   (C9_confidence_defaults (initial_state "q2") rfl).2.1⟩

end RegQA
